import Mathlib

/-!
Verification development for the MikaDesktop icon-extraction and
tray-icon-discovery engine.

The Python modules `catchIco.py`, `catch_tray.py` and `MakeAppIcon/overlay.py`
are shallowly embedded below.  Python strings are modelled as `List Char`,
Python `int` as `Int` (sizes, which are non-negative throughout, as `Nat`),
Python dictionaries as insertion-ordered association lists, and the Windows
API surface (window handles, registry, GDI) as explicit oracle structures
whose fields stand for the individual API calls.  A Python function that can
raise an exception that escapes to its caller is embedded as an
`Option`-returning function (`none` = the call raised).
-/

namespace MikaDesktop

/-- Python strings are modelled as lists of characters, so that all string
operations are structural recursions the kernel can evaluate. -/
abbrev PyStr := List Char

/-- Characters of a Lean string literal (used to write Python string
literals in the embedding). -/
def ps (s : String) : PyStr := s.data

/-- Python `str.isdigit()`: non-empty and every character a digit. -/
def pyIsDigits (s : PyStr) : Bool := !s.isEmpty && s.all Char.isDigit

/-- Python `str.lower()` (ASCII case folding suffices for the suffixes the
source compares against). -/
def pyToLower (s : PyStr) : PyStr := s.map Char.toLower

/-- Python `str.startswith(p)`. -/
def pyStartsWith (s p : PyStr) : Bool := s.take p.length == p

/-- Python `str.endswith(p)`. -/
def pyEndsWith (s p : PyStr) : Bool :=
  decide (p.length ≤ s.length) && (s.drop (s.length - p.length) == p)

/-- Python `needle in hay` on strings (substring test). -/
def pyStrHasSub (needle : PyStr) : PyStr → Bool
  | [] => needle.isEmpty
  | c :: rest => ((c :: rest).take needle.length == needle) || pyStrHasSub needle rest

/-- Numeric value of a decimal digit character. -/
def digitVal (c : Char) : Nat := c.toNat - 48

/-- Value of a non-empty string of decimal digits. -/
def pyIntOfDigits (s : PyStr) : Int :=
  s.foldl (fun a c => a * 10 + (digitVal c : Int)) 0

/-- Python `str.strip()` of surrounding whitespace. -/
def pyStrip (s : PyStr) : PyStr :=
  ((s.dropWhile Char.isWhitespace).reverse.dropWhile Char.isWhitespace).reverse

/-- Python `int(s)`: strips whitespace, accepts an optional sign followed by
digits; `none` models the `ValueError` raised otherwise. -/
def pyInt? (s : PyStr) : Option Int :=
  match pyStrip s with
  | '-' :: ds => if pyIsDigits ds then some (-(pyIntOfDigits ds)) else none
  | '+' :: ds => if pyIsDigits ds then some (pyIntOfDigits ds) else none
  | ds => if pyIsDigits ds then some (pyIntOfDigits ds) else none

/-- Decimal digits of `n` (fuel-driven so that it is structurally
recursive; `natChars (n+1) n` always has enough fuel). -/
def natChars (fuel : Nat) (n : Nat) : List Char :=
  match fuel with
  | 0 => []
  | f + 1 => if n < 10 then [Char.ofNat (48 + n)]
             else natChars f (n / 10) ++ [Char.ofNat (48 + n % 10)]

/-- Python `str(n)` for a natural number. -/
def pyStrOfNat (n : Nat) : PyStr := natChars (n + 1) n

/-- Python `str(n)` for an integer. -/
def pyStrOfInt (n : Int) : PyStr :=
  if n < 0 then '-' :: pyStrOfNat n.natAbs else pyStrOfNat n.natAbs

/-- Python `f"{x}"` of an optional number (`None` prints as `"None"`). -/
def pyFmtOptNat : Option Nat → PyStr
  | none => ps "None"
  | some n => pyStrOfNat n

/-- Python `f"{x}"` of an optional string (`None` prints as `"None"`). -/
def pyFmtOptStr : Option PyStr → PyStr
  | none => ps "None"
  | some s => s

/-! ## Shared data model (`catchIco.py` / `catch_tray.py`)

`IconInfo` and `ExtractedIcon` are the dataclasses both modules declare
(`catch_tray.py`'s `IconInfo` carries the three extra optional tray fields;
`catchIco.py` leaves them `none`). -/

/-- A window rectangle as returned by `GetWindowRect`:
`(left, top, right, bottom)` in screen coordinates. -/
structure Rect where
  left : Int
  top : Int
  right : Int
  bottom : Int
deriving DecidableEq, Repr

/-- Provenance of a PIL image produced by the engine: drawn from a native
icon handle, one of the two synthetic placeholders of
`catch_tray._hicon_to_pil`, or a screen capture of a window region. -/
inductive ImageKind where
  | native (hicon : Nat)
  | grayPlaceholder
  | redPlaceholder
  | captured (hwnd : Nat) (rect : Rect)
deriving DecidableEq, Repr

/-- Model of a `PIL.Image.Image` as used by the extraction modules: its
pixel dimensions and where its pixels came from. -/
structure PILImage where
  width : Nat
  height : Nat
  kind : ImageKind
deriving DecidableEq, Repr

/-- Models `_pil_to_bytes(image, format)` (PIL `save` into a buffer,
library code): a deterministic encoding that records the dimensions and the
format tag.  No claim inspects the encoded bytes beyond determinism. -/
def pil_to_bytes (img : PILImage) (format : PyStr) : List Nat :=
  img.width :: img.height :: format.map Char.toNat

/-- The `IconInfo` dataclass (`catch_tray.py` lines 65-77; `catchIco.py`
lines 71-81 is the same without the last three fields). -/
structure IconInfo where
  path : PyStr
  index : Int
  width : Nat
  height : Nat
  bits_per_pixel : Nat
  format : PyStr
  size_bytes : Nat
  process_id : Option Nat := none
  window_title : Option PyStr := none
  tooltip : Option PyStr := none
deriving DecidableEq, Repr

/-- The `ExtractedIcon` dataclass (`catchIco.py` lines 83-90). -/
structure ExtractedIcon where
  image : Option PILImage
  raw_data : List Nat
  info : IconInfo
  success : Bool
  error : Option PyStr := none
deriving DecidableEq, Repr

/-- `IconInfo(path, index, size, size, 32, 'Unknown', 0)` — the positional
constructor call used by every failure branch of `catchIco.py`. -/
def iconInfoUnknown (path : PyStr) (index : Int) (size : Nat) : IconInfo :=
  { path := path, index := index, width := size, height := size,
    bits_per_pixel := 32, format := ps "Unknown", size_bytes := 0 }

namespace CatchIco

/-- A source value passed to `extract_icon`: Python `int` or `str` (a
`pathlib.Path` behaves as its string). -/
inductive Source where
  | int (n : Int)
  | str (s : PyStr)
deriving DecidableEq, Repr

/-- Python `f"{source}"` as used by `_make_cache_key`. -/
def sourceStr : Source → PyStr
  | .int n => pyStrOfInt n
  | .str s => s

/-- The closed set of source classifications `extract_icon` dispatches on. -/
inductive SourceKind where
  | systemId (id : Int)
  | specialLocation (s : PyStr)
  | fileIcon (path : PyStr) (index : Int)
  | shortcut (path : PyStr)
  | extension (s : PyStr)
  | unrecognized (s : PyStr)
deriving DecidableEq, Repr

/-- The source-classification chain of `extract_icon`
(`catchIco.py` lines 174-204), first match wins:
`int`/all-digit string, then `'::'`-prefixed, then `.exe`/`.dll`/`.ico`
suffix, then `.lnk` suffix, then any string containing `'.'`, then an
existing path, else unrecognized. -/
def classify_source (path_exists : PyStr → Bool) (icon_index : Int) :
    Source → SourceKind
  | .int n => .systemId n
  | .str s =>
    if pyIsDigits s then .systemId (pyIntOfDigits s)
    else if pyStartsWith s (ps "::") then .specialLocation s
    else if pyEndsWith (pyToLower s) (ps ".exe") || pyEndsWith (pyToLower s) (ps ".dll")
            || pyEndsWith (pyToLower s) (ps ".ico") then .fileIcon s icon_index
    else if pyEndsWith (pyToLower s) (ps ".lnk") then .shortcut s
    else if s.contains '.' then .extension s
    else if path_exists s then .fileIcon s icon_index
    else .unrecognized s

/-- The per-kind internal loaders `extract_icon` dispatches to
(`_extract_system_icon`, `_extract_special_folder_icon`,
`_extract_file_icon`, `_extract_shortcut_icon`, `_extract_extension_icon`).
They are native-API bound, so the embedding abstracts each as a function of
the arguments the source passes it. -/
structure Loaders where
  systemIcon : Int → Nat → ExtractedIcon
  specialFolder : PyStr → Nat → ExtractedIcon
  fileIcon : PyStr → Nat → Int → ExtractedIcon
  shortcutIcon : PyStr → Nat → ExtractedIcon
  extensionIcon : PyStr → Nat → ExtractedIcon

/-- The `ExtractedIcon` built inline for an unrecognized source
(`catchIco.py` lines 198-204). -/
def unrecognizedResult (s : PyStr) (icon_index : Int) (size : Nat) : ExtractedIcon :=
  { image := none, raw_data := [], info := iconInfoUnknown s icon_index size,
    success := false, error := some (ps "无法识别的图标源: " ++ s) }

/-- The body of `extract_icon`'s dispatch (`catchIco.py` lines 174-212):
classify, then call the matching loader, or build the inline failure
result. -/
def dispatch_source (L : Loaders) (path_exists : PyStr → Bool)
    (source : Source) (size : Nat) (icon_index : Int) : ExtractedIcon :=
  match classify_source path_exists icon_index source with
  | .systemId id => L.systemIcon id size
  | .specialLocation s => L.specialFolder s size
  | .fileIcon p i => L.fileIcon p size i
  | .shortcut p => L.shortcutIcon p size
  | .extension s => L.extensionIcon s size
  | .unrecognized s => unrecognizedResult s icon_index size

/-- Mutable state of a `WindowsIconExtractor` instance
(`catchIco.py` lines 108-138): cache flag, the insertion-ordered cache
dictionary, and its maximum size. -/
structure ExtractorState where
  cache_enabled : Bool
  icon_cache : List (PyStr × ExtractedIcon)
  max_cache_size : Nat
deriving DecidableEq, Repr

/-- `_make_cache_key` (`catchIco.py` lines 417-419):
`f"{source}|{size}|{index}"`. -/
def make_cache_key (source : Source) (size : Nat) (index : Int) : PyStr :=
  sourceStr source ++ '|' :: pyStrOfNat size ++ '|' :: pyStrOfInt index

/-- Python-dict lookup (`cache_key in self._icon_cache` /
`self._icon_cache[cache_key]`). -/
def pyDictLookup (c : List (PyStr × ExtractedIcon)) (k : PyStr) : Option ExtractedIcon :=
  match c with
  | [] => none
  | (k', v) :: rest => if k' = k then some v else pyDictLookup rest k

/-- Python-dict assignment `d[k] = v`: updates an existing key in place
(keeping its insertion position) or appends a new one at the end. -/
def pyDictInsert (c : List (PyStr × ExtractedIcon)) (k : PyStr) (v : ExtractedIcon) :
    List (PyStr × ExtractedIcon) :=
  match c with
  | [] => [(k, v)]
  | (k', v') :: rest =>
    if k' = k then (k', v) :: rest else (k', v') :: pyDictInsert rest k v

/-- Python-dict key membership as a Bool. -/
def pyDictHasKey (c : List (PyStr × ExtractedIcon)) (k : PyStr) : Bool :=
  (pyDictLookup c k).isSome

/-- `_add_to_cache` (`catchIco.py` lines 421-427): when the cache has
reached `max_cache_size`, delete the first-inserted entry
(`next(iter(dict))` — `none` models the `StopIteration` it raises on an
empty dict, reachable only with `max_cache_size = 0`), then store the new
entry. -/
def add_to_cache (st : ExtractorState) (key : PyStr) (icon : ExtractedIcon) :
    Option ExtractorState :=
  if st.max_cache_size ≤ st.icon_cache.length then
    match st.icon_cache with
    | [] => none
    | _oldest :: rest => some { st with icon_cache := pyDictInsert rest key icon }
  else some { st with icon_cache := pyDictInsert st.icon_cache key icon }

/-- `extract_icon` (`catchIco.py` lines 147-218): normalize, consult the
cache, dispatch on the source kind, and cache the result only when it is
successful.  Returns the result, the updated state, and the number of
loader dispatches this call executed (0 on a cache hit, 1 otherwise);
`none` models an escaping exception (only `_add_to_cache`'s
`StopIteration`, see `add_to_cache`). -/
def extract_icon (L : Loaders) (path_exists : PyStr → Bool) (st : ExtractorState)
    (source : Source) (size : Nat) (icon_index : Int) :
    Option (ExtractedIcon × ExtractorState × Nat) :=
  let cache_key := make_cache_key source size icon_index
  match (if st.cache_enabled then pyDictLookup st.icon_cache cache_key else none) with
  | some cached => some (cached, st, 0)
  | none =>
    let result := dispatch_source L path_exists source size icon_index
    if st.cache_enabled && result.success then
      match add_to_cache st cache_key result with
      | none => none
      | some st' => some (result, st', 1)
    else some (result, st, 1)

/-! ### `_extract_extension_icon` (`catchIco.py` lines 553-606)

The registry is abstracted as `regQuery : PyStr → Option PyStr`, modelling
`win32gui.RegQueryValue(HKEY_CLASSES_ROOT, keyPath)` (`none` = the call
raised), and `os.path.expandvars` as an abstract
`expandvars : PyStr → PyStr`.  The function's observable decision — which
call it ends in — is captured as an `ExtensionPlan`. -/

/-- What `_extract_extension_icon` does after consulting the registry:
recurse into `self.extract_icon(icon_file, size, icon_idx)`, fall back to
`self.extract_system_icon(0, size)`, or take the exception path that
returns the inline failure result. -/
inductive ExtensionPlan where
  | recurse (file : PyStr) (size : Nat) (index : Int)
  | unknownTypeFallback (size : Nat)
  | failure
deriving DecidableEq, Repr

/-- Splits a string at the last occurrence of `c` (`none` when `c` does
not occur); this is Python `s.rsplit(c, 1)` for a string containing `c`. -/
def splitAtLastChar (c : Char) : PyStr → Option (PyStr × PyStr)
  | [] => none
  | x :: xs =>
    match splitAtLastChar c xs with
    | some (l, r) => some (x :: l, r)
    | none => if x = c then some ([], xs) else none

/-- The `DefaultIcon`-value parse of `_extract_extension_icon`
(`catchIco.py` lines 579-585): if the value contains a comma, split at the
last comma (`rsplit(',', 1)`) and convert the right part with `int` (`none`
models the `ValueError` when it is not an integer); otherwise the whole
value is the file and the index defaults to 0. -/
def parse_default_icon_value (icon_path : PyStr) : Option (PyStr × Int) :=
  match splitAtLastChar ',' icon_path with
  | some (file, idxStr) => (pyInt? idxStr).map (fun i => (file, i))
  | none => some (icon_path, 0)

/-- `_extract_extension_icon` (`catchIco.py` lines 553-606) up to its final
call: query the registered type of the extension, resolve its
`DefaultIcon` value (falling back to the extension key's own
`DefaultIcon`), parse `"<file>,<index>"`, expand environment variables in
the file part (a second time if a `%` remains), and recurse into
`extract_icon`; an empty type or value falls back to the unknown-file
system icon, and any raised exception yields the failure result. -/
def extract_extension_icon_plan (regQuery : PyStr → Option PyStr)
    (expandvars : PyStr → PyStr) (extension : PyStr) (size : Nat) : ExtensionPlan :=
  match regQuery extension with
  | none => .failure
  | some file_type =>
    if file_type.isEmpty then .unknownTypeFallback size
    else
      let iconPath? :=
        match regQuery (file_type ++ ps "\\DefaultIcon") with
        | some p => some p
        | none => regQuery (extension ++ ps "\\DefaultIcon")
      match iconPath? with
      | none => .failure
      | some icon_path =>
        if icon_path.isEmpty then .unknownTypeFallback size
        else
          match parse_default_icon_value icon_path with
          | none => .failure
          | some (file0, icon_idx) =>
            let file1 := expandvars file0
            let file2 := if file1.contains '%' then expandvars file1 else file1
            .recurse file2 size icon_idx

end CatchIco

/-! ## Native GDI resources of `_hicon_to_pil`

`_hicon_to_pil` (`catchIco.py` lines 708-740 and `catch_tray.py` lines
760-808) is a straight-line sequence of native calls; its native-resource
behaviour is embedded as the list of acquire/release events it performs,
in source order. -/

/-- The native resources `_hicon_to_pil` acquires: the screen device
context from `GetDC(0)`, the backing compatible bitmap from
`CreateBitmap`/`CreateCompatibleBitmap`, and the memory device context
from `CreateCompatibleDC`. -/
inductive GdiResource where
  | screenDC
  | compatibleBitmap
  | memoryDC
deriving DecidableEq, Repr

/-- An acquisition or release of a native GDI resource. -/
inductive GdiEvent where
  | acq (r : GdiResource)
  | rel (r : GdiResource)
deriving DecidableEq, Repr

/-- Resource events of `_hicon_to_pil`'s drawing path in source order
(`catchIco.py` lines 713-740; identically `catch_tray.py` lines 767-794):
`win32gui.GetDC(0)` (wrapped by `CreateDCFromHandle`), then
`CreateBitmap()`/`CreateCompatibleBitmap(hdc, size, size)`, then
`hdc.CreateCompatibleDC()`.  The remaining statements (`SelectObject`,
`FillSolidRect`, `DrawIconEx`, `GetInfo`, `GetBitmapBits`,
`Image.frombuffer`, `return image`) neither acquire nor release a native
resource; the function body contains no `ReleaseDC`, `DeleteDC` or
`DeleteObject` call.  An exception after `k` of these calls (the
`catch_tray.py` variant catches it and builds a placeholder instead)
leaves the event trace `hicon_to_pil_events.take k`. -/
def hicon_to_pil_events : List GdiEvent :=
  [.acq .screenDC, .acq .compatibleBitmap, .acq .memoryDC]

/-- Resources acquired in an event trace. -/
def acquiredIn (t : List GdiEvent) : List GdiResource :=
  t.filterMap (fun e => match e with | .acq r => some r | .rel _ => none)

/-- Resources released in an event trace. -/
def releasedIn (t : List GdiEvent) : List GdiResource :=
  t.filterMap (fun e => match e with | .rel r => some r | .acq _ => none)

/-- Resources acquired but never released in an event trace — these
outlive the call. -/
def leakedIn (t : List GdiEvent) : List GdiResource :=
  (acquiredIn t).filter (fun r => !(releasedIn t).contains r)

namespace CatchTray

/-! ## `catch_tray.py` — `TrayIconExtractor`

The Windows window tree and the GDI calls are abstracted as a `WinSys`
oracle; window handles are `Nat` with 0 the null handle, as in the
source's truthiness tests. -/

/-- `win32con` constants used by the source. -/
def ICON_SMALL : Nat := 0

/-- `win32con.ICON_BIG`. -/
def ICON_BIG : Nat := 1

/-- `win32con.GCL_HICON`. -/
def GCL_HICON : Int := -14

/-- `win32con.GCL_HICONSM`. -/
def GCL_HICONSM : Int := -34

/-- Oracle for the native API surface `catch_tray.py` touches.  A field
returning `Option` models a call whose failure the source observes (an
exception it catches, or a falsy return it tests); one returning a plain
value models a call used only for its value. -/
structure WinSys where
  /-- `win32gui.FindWindow(className, None)`; 0 = not found. -/
  findWindow : PyStr → Nat
  /-- `win32gui.FindWindowEx(parent, after, className, None)`; 0 = not found. -/
  findWindowEx : Nat → Nat → PyStr → Nat
  /-- `win32gui.EnumChildWindows` callback order. -/
  enumChildWindows : Nat → List Nat
  /-- `win32gui.GetClassName`; `none` = the call raised. -/
  getClassName : Nat → Option PyStr
  /-- `win32gui.GetWindowRect`; `none` = the call raised or returned a falsy value. -/
  getWindowRect : Nat → Option Rect
  /-- `win32gui.IsWindowVisible`. -/
  isWindowVisible : Nat → Bool
  /-- `win32gui.GetWindowText`. -/
  getWindowText : Nat → PyStr
  /-- pid from `win32process.GetWindowThreadProcessId`; `none` = raised. -/
  windowThreadProcessId : Nat → Option Nat
  /-- `win32gui.SendMessage(hwnd, WM_GETICON, wparam, 0)`; 0 = no icon. -/
  wmGetIcon : Nat → Nat → Nat
  /-- `win32gui.GetClassLong(hwnd, GCL_HICONSM / GCL_HICON)`; 0 = no icon. -/
  classLongIcon : Nat → Int → Nat
  /-- `win32api.OpenProcess` + `win32process.GetModuleFileNameEx` (+
  `CloseHandle`); `none` = raised. -/
  processExePath : Nat → Option PyStr
  /-- `os.path.exists`. -/
  pathExists : PyStr → Bool
  /-- `win32gui.ExtractIconEx(path, 0, 1)`: (large, small) handle lists. -/
  extractIconEx : PyStr → List Nat × List Nat
  /-- Whether `_hicon_to_pil`'s GDI drawing path succeeds for `(hicon, size)`. -/
  drawIconOk : Nat → Nat → Bool
  /-- Whether the gray-"Icon" placeholder construction (PIL `ImageDraw`)
  succeeds. -/
  placeholderOk : Bool
  /-- `SendMessageW(toolbar, TB_BUTTONCOUNT, 0, 0)`. -/
  tbButtonCount : Nat → Int
  /-- `SendMessageW(toolbar, TB_GETITEMRECT, idx, &rect)`; `none` = falsy result. -/
  tbGetItemRect : Nat → Nat → Option Rect
  /-- Whether `_capture_window_rect`'s GDI path succeeds for `(hwnd, rect)`. -/
  captureOk : Nat → Rect → Bool

/-- `_rect_intersects` (`catch_tray.py` lines 453-457) on two known
rectangles: the negation of the four separating conditions. -/
def rect_intersects (r1 r2 : Rect) : Bool :=
  !(decide (r1.right ≤ r2.left) || decide (r2.right ≤ r1.left)
    || decide (r1.bottom ≤ r2.top) || decide (r2.bottom ≤ r1.top))

/-- `_hicon_to_pil` (`catch_tray.py` lines 760-808): raises `RuntimeError`
when a dependency is missing (`none`); otherwise draws the handle into a
`size × size` bitmap, and on any exception in that GDI path falls back to
a gray `size × size` placeholder with the text `"Icon"`, or — if even the
placeholder construction fails — a solid red `size × size` image. -/
def hicon_to_pil (deps_ok : Bool) (ws : WinSys) (hicon : Nat) (size : Nat) :
    Option PILImage :=
  if !deps_ok then none
  else some
    (if ws.drawIconOk hicon size then { width := size, height := size, kind := .native hicon }
     else if ws.placeholderOk then { width := size, height := size, kind := .grayPlaceholder }
     else { width := size, height := size, kind := .redPlaceholder })

/-- `_get_classname` (`catch_tray.py` lines 208-214): empty string when
`GetClassName` raises. -/
def get_classname (ws : WinSys) (hwnd : Nat) : PyStr :=
  (ws.getClassName hwnd).getD []

/-- `_get_son_windows` (`catch_tray.py` lines 197-206). -/
def get_son_windows (ws : WinSys) (hwnd : Nat) : List Nat :=
  ws.enumChildWindows hwnd

/-- Python truthiness of an optional pid. -/
def pyTruthyNat : Option Nat → Bool
  | none => false
  | some n => !(n == 0)

/-- The icon-handle acquisition chain of the improved (tier-1) extraction
(`catch_tray.py` lines 296-337): `WM_GETICON` with `ICON_SMALL`,
`ICON_BIG`, then 0; then the class icons `GCL_HICONSM`, `GCL_HICON`; then,
when a pid is known, the process executable's icon via
`ExtractIconEx(exe, 0, 1)` preferring the large set.  Returns 0 when every
method fails. -/
def acquire_hicon_improved (ws : WinSys) (child : Nat) (pid : Option Nat) : Nat :=
  let h := ws.wmGetIcon child ICON_SMALL
  let h := if h = 0 then ws.wmGetIcon child ICON_BIG else h
  let h := if h = 0 then ws.wmGetIcon child 0 else h
  let h := if h = 0 then
      let c := ws.classLongIcon child GCL_HICONSM
      if c = 0 then ws.classLongIcon child GCL_HICON else c
    else h
  if h ≠ 0 then h
  else match pid with
    | none => 0
    | some p =>
      if p = 0 then 0
      else match ws.processExePath p with
        | none => 0
        | some exe =>
          if ws.pathExists exe then
            match ws.extractIconEx exe with
            | (l0 :: _, _) => l0
            | ([], s0 :: _) => s0
            | ([], []) => 0
          else 0

/-- The `path` field of a tier-1 record (`catch_tray.py` line 346):
`f"TrayIcon_PID_{pid}" if not pid else f"PID_{pid}"`. -/
def tray_path_improved (pid : Option Nat) : PyStr :=
  if !pyTruthyNat pid then ps "TrayIcon_PID_" ++ pyFmtOptNat pid
  else ps "PID_" ++ pyFmtOptNat pid

/-- One candidate control of the improved (tier-1) extraction
(`catch_tray.py` lines 265-377): keep only the four control classes, demand
a known rectangle whose width and height lie in 12-40 px, demand
visibility, then acquire an icon handle and convert it; `none` = the
control contributes nothing. -/
def tier1_process_child (deps_ok : Bool) (ws : WinSys) (size : Nat) (child : Nat) :
    Option ExtractedIcon :=
  match ws.getClassName child with
  | none => none
  | some cn =>
    if cn = ps "ToolbarWindow32" ∨ cn = ps "Button" ∨ cn = ps "Static"
       ∨ cn = ps "SysImageView32" then
      match ws.getWindowRect child with
      | none => none
      | some rect =>
        if rect.right - rect.left < 12 ∨ rect.bottom - rect.top < 12
           ∨ 40 < rect.right - rect.left ∨ 40 < rect.bottom - rect.top then none
        else if !ws.isWindowVisible child then none
        else if acquire_hicon_improved ws child (ws.windowThreadProcessId child) = 0 then
          none
        else
          match hicon_to_pil deps_ok ws
              (acquire_hicon_improved ws child (ws.windowThreadProcessId child)) size with
          | none => none
          | some image =>
            some { image := some image, raw_data := pil_to_bytes image (ps "PNG"),
                   info := { path := tray_path_improved (ws.windowThreadProcessId child),
                             index := 0, width := size, height := size,
                             bits_per_pixel := 32, format := ps "ICO",
                             size_bytes := (pil_to_bytes image (ps "PNG")).length,
                             process_id := ws.windowThreadProcessId child,
                             window_title := some (ws.getWindowText child),
                             tooltip := some (ws.getWindowText child) },
                   success := true }
    else none

/-- `_extract_icons_from_notify_window_improved` (`catch_tray.py` lines
261-380): fold `tier1_process_child` over the enumerated children. -/
def extract_icons_from_notify_window_improved (deps_ok : Bool) (ws : WinSys)
    (hwnd : Nat) (size : Nat) : List ExtractedIcon :=
  (ws.enumChildWindows hwnd).foldl (fun acc child =>
    match tier1_process_child deps_ok ws size child with
    | some icon => acc ++ [icon]
    | none => acc) []

/-- The flag-driven collection of `_get_tray_icons_improved`
(`catch_tray.py` lines 229-242): every child from the first
`TrayNotifyWnd` onward. -/
def collect_tray_windows (ws : WinSys) (children : List Nat) : List Nat :=
  (children.foldl (fun (p : Bool × List Nat) child =>
    let cn := get_classname ws child
    let flag := p.1 || (cn == ps "TrayNotifyWnd")
    (flag, if flag then p.2 ++ [child] else p.2)) (false, [])).2

/-- `_get_tray_icons_improved` (`catch_tray.py` lines 216-259), the first
(precise) discovery tier: no taskbar root window means an immediate empty
result; otherwise walk the taskbar's children from the first
`TrayNotifyWnd` onward, extract from each container of the three
qualifying classes, and also probe the overflow-notification window. -/
def get_tray_icons_improved (deps_ok : Bool) (ws : WinSys) (size : Nat) :
    List ExtractedIcon :=
  let tray_hwnd := ws.findWindow (ps "Shell_TrayWnd")
  if tray_hwnd = 0 then []
  else
    let children := get_son_windows ws tray_hwnd
    let tuopan := collect_tray_windows ws children
    let icons := tuopan.foldl (fun acc notify_hwnd =>
      let cn := get_classname ws notify_hwnd
      if cn = ps "TrayNotifyWnd" ∨ cn = ps "ToolbarWindow32" ∨ cn = ps "SysPager" then
        acc ++ extract_icons_from_notify_window_improved deps_ok ws notify_hwnd size
      else acc) []
    let overflow := ws.findWindow (ps "NotifyIconOverflowWindow")
    if overflow ≠ 0 then
      icons ++ extract_icons_from_notify_window_improved deps_ok ws overflow size
    else icons

/-- `_capture_window_rect` (`catch_tray.py` lines 818-857): reject a
degenerate rectangle, capture via `BitBlt` (its GDI failure paths collapse
into `captureOk`), and resize to `size × size` when `size` is truthy and
the captured dimensions differ. -/
def capture_window_rect (ws : WinSys) (hwnd : Nat) (rect : Rect) (size : Nat) :
    Option PILImage :=
  let width := rect.right - rect.left
  let height := rect.bottom - rect.top
  if width ≤ 0 ∨ height ≤ 0 then none
  else if !ws.captureOk hwnd rect then none
  else
    let img : PILImage := { width := width.toNat, height := height.toNat,
                            kind := .captured hwnd rect }
    if size ≠ 0 ∧ (img.width ≠ size ∨ img.height ≠ size) then
      some { width := size, height := size, kind := .captured hwnd rect }
    else some img

/-- One toolbar button of `_enum_toolbar_buttons_and_capture`
(`catch_tray.py` lines 873-924): get the button rectangle, translate it to
screen coordinates (falling back to the raw rectangle when
`GetWindowRect` raises), filter by 8-128 px, then — NOTE — the source's
double-negated test (line 894) keeps exactly the buttons whose rectangle
does NOT intersect `parent_rect` and skips the intersecting ones, contrary
to its own comments; finally capture the region. -/
def toolbar_button_icon (ws : WinSys) (toolbar : Nat) (size : Nat)
    (parent_rect : Option Rect) (idx : Nat) : Option ExtractedIcon :=
  match ws.tbGetItemRect toolbar idx with
  | none => none
  | some item_rect =>
    let screen_rect := match ws.getWindowRect toolbar with
      | some t => { left := item_rect.left + t.left, top := item_rect.top + t.top,
                    right := item_rect.right + t.left, bottom := item_rect.bottom + t.top }
      | none => item_rect
    let width := screen_rect.right - screen_rect.left
    let height := screen_rect.bottom - screen_rect.top
    if width < 8 ∨ height < 8 ∨ 128 < width ∨ 128 < height then none
    else
      let skip : Bool := match parent_rect with
        | some pr => rect_intersects pr screen_rect
        | none => false
      if skip then none
      else match capture_window_rect ws toolbar screen_rect size with
        | none => none
        | some img =>
          let raw := pil_to_bytes img (ps "PNG")
          let pid := ws.windowThreadProcessId toolbar
          some { image := some img, raw_data := raw,
                 info := { path := ps "Toolbar_" ++ pyStrOfNat toolbar ++ ps "_btn_"
                             ++ pyStrOfNat idx,
                           index := (idx : Int), width := size, height := size,
                           bits_per_pixel := 32, format := ps "PNG",
                           size_bytes := raw.length, process_id := pid,
                           window_title := none, tooltip := none },
                 success := true }

/-- `_enum_toolbar_buttons_and_capture` (`catch_tray.py` lines 860-929). -/
def enum_toolbar_buttons_and_capture (ws : WinSys) (toolbar : Nat) (size : Nat)
    (parent_rect : Option Rect) : List ExtractedIcon :=
  let count := ws.tbButtonCount toolbar
  if count ≤ 0 then []
  else (List.range count.toNat).foldl (fun acc idx =>
    match toolbar_button_icon ws toolbar size parent_rect idx with
    | some icon => acc ++ [icon]
    | none => acc) []

/-- The icon-handle acquisition chain of the tier-2 extraction
(`catch_tray.py` lines 515-555): `WM_GETICON` small then big, class
icons, then the process executable (requiring a non-empty existing
path). -/
def acquire_hicon_enum (ws : WinSys) (child : Nat) (pid : Option Nat) : Nat :=
  let h := ws.wmGetIcon child ICON_SMALL
  let h := if h = 0 then ws.wmGetIcon child ICON_BIG else h
  let h := if h = 0 then
      let c := ws.classLongIcon child GCL_HICONSM
      if c = 0 then ws.classLongIcon child GCL_HICON else c
    else h
  if h ≠ 0 then h
  else match pid with
    | none => 0
    | some p =>
      if p = 0 then 0
      else match ws.processExePath p with
        | none => 0
        | some exe =>
          if !exe.isEmpty && ws.pathExists exe then
            match ws.extractIconEx exe with
            | (l0 :: _, _) => l0
            | ([], s0 :: _) => s0
            | ([], []) => 0
          else 0

/-- One candidate child of `_extract_icons_from_notify_window`
(`catch_tray.py` lines 469-587): toolbars are delegated to the precise
button enumeration; other controls of the qualifying classes must be
visible and — when both the container's and the control's rectangles are
known — must intersect the container and have width and height within
8-64 px.  `tier2_keep` is the retain test (`catch_tray.py` lines
488-503): applied only when both rectangles are known; `true` means the
control is kept. -/
def tier2_keep (parent_rect item_rect : Option Rect) : Bool :=
  match parent_rect, item_rect with
  | some pr, some ir =>
    if !rect_intersects pr ir then false
    else !(decide (ir.right - ir.left < 8) || decide (ir.bottom - ir.top < 8)
           || decide (64 < ir.right - ir.left) || decide (64 < ir.bottom - ir.top))
  | _, _ => true

/-- The body of `tier2_process_child` for a retained non-toolbar
control. -/
def tier2_record (deps_ok : Bool) (ws : WinSys) (size : Nat) (child : Nat) :
    List ExtractedIcon :=
  if acquire_hicon_enum ws child (ws.windowThreadProcessId child) = 0 then []
  else
    match hicon_to_pil deps_ok ws
        (acquire_hicon_enum ws child (ws.windowThreadProcessId child)) size with
    | none => []
    | some image =>
      [{ image := some image, raw_data := pil_to_bytes image (ps "PNG"),
         info := { path := if pyTruthyNat (ws.windowThreadProcessId child) then
                             ps "PID_" ++ pyFmtOptNat (ws.windowThreadProcessId child)
                           else ps "Unknown",
                   index := 0, width := size, height := size,
                   bits_per_pixel := 32, format := ps "ICO",
                   size_bytes := (pil_to_bytes image (ps "PNG")).length,
                   process_id := ws.windowThreadProcessId child,
                   window_title := some (ws.getWindowText child),
                   tooltip := some (ws.getWindowText child) },
         success := true }]

/-- One candidate child of `_extract_icons_from_notify_window`, assembled
from the class dispatch, visibility test, `tier2_keep` filter and
`tier2_record` body. -/
def tier2_process_child (deps_ok : Bool) (ws : WinSys) (parent_rect : Option Rect)
    (size : Nat) (child : Nat) : List ExtractedIcon :=
  match ws.getClassName child with
  | none => []
  | some cn =>
    if cn = ps "ToolbarWindow32" then
      enum_toolbar_buttons_and_capture ws child size parent_rect
    else if ¬(cn = ps "Button" ∨ cn = ps "Static" ∨ cn = ps "SysImageView32"
              ∨ cn = ps "SysPager" ∨ cn = ps "TrayNotifyWnd") then []
    else if !ws.isWindowVisible child then []
    else if !tier2_keep parent_rect (ws.getWindowRect child) then []
    else tier2_record deps_ok ws size child

/-- `_extract_icons_from_notify_window` (`catch_tray.py` lines 459-595). -/
def extract_icons_from_notify_window (deps_ok : Bool) (ws : WinSys) (hwnd : Nat)
    (size : Nat) : List ExtractedIcon :=
  let parent_rect := ws.getWindowRect hwnd
  (ws.enumChildWindows hwnd).foldl (fun acc child =>
    acc ++ tier2_process_child deps_ok ws parent_rect size child) []

/-- `_get_tray_icons_by_window_enum` (`catch_tray.py` lines 382-435), the
second discovery tier: locate the notification windows by class name
(with the nested `SysPager`/`TrayNotifyWnd` secondary lookup and a
child-enumeration fallback), extract from each, and probe the overflow
window. -/
def get_tray_icons_by_window_enum (deps_ok : Bool) (ws : WinSys) (size : Nat) :
    List ExtractedIcon :=
  let tray_hwnd := ws.findWindow (ps "Shell_TrayWnd")
  if tray_hwnd = 0 then []
  else
    let n1 := ws.findWindowEx tray_hwnd 0 (ps "TrayNotifyWnd")
    let hwnds : List Nat := if n1 ≠ 0 then [n1] else []
    let syspager := ws.findWindowEx tray_hwnd 0 (ps "SysPager")
    let hwnds := if syspager ≠ 0 then
        let nested := ws.findWindowEx syspager 0 (ps "TrayNotifyWnd")
        if nested ≠ 0 then hwnds ++ [nested] else hwnds
      else hwnds
    let toolbar := ws.findWindowEx tray_hwnd 0 (ps "ToolbarWindow32")
    let hwnds := if toolbar ≠ 0 then hwnds ++ [toolbar] else hwnds
    let hwnds := if hwnds = [] then
        (ws.enumChildWindows tray_hwnd).filter (fun h =>
          let cn := get_classname ws h
          cn == ps "TrayNotifyWnd" || cn == ps "ToolbarWindow32" || cn == ps "SysPager")
      else hwnds
    let icons := hwnds.foldl (fun acc nh =>
      acc ++ extract_icons_from_notify_window deps_ok ws nh size) []
    let overflow := ws.findWindow (ps "NotifyIconOverflowWindow")
    if overflow ≠ 0 then
      icons ++ extract_icons_from_notify_window deps_ok ws overflow size
    else icons

/-- `_get_tray_icons_via_api` (`catch_tray.py` lines 597-670), the third
(raw ctypes) discovery tier: same taskbar guard, then a substring match on
the class name and `WM_GETICON` small/big only. -/
def get_tray_icons_via_api (deps_ok : Bool) (ws : WinSys) (size : Nat) :
    List ExtractedIcon :=
  let taskbar := ws.findWindow (ps "Shell_TrayWnd")
  if taskbar = 0 then []
  else
    (ws.enumChildWindows taskbar).foldl (fun acc h =>
      let cn := get_classname ws h
      if pyStrHasSub (ps "TrayNotifyWnd") cn || pyStrHasSub (ps "ToolbarWindow32") cn then
        let pid := (ws.windowThreadProcessId h).getD 0
        let hicon :=
          let x := ws.wmGetIcon h ICON_SMALL
          if x = 0 then ws.wmGetIcon h ICON_BIG else x
        if hicon = 0 then acc
        else match hicon_to_pil deps_ok ws hicon size with
          | none => acc
          | some image =>
            let raw := pil_to_bytes image (ps "PNG")
            let title := ws.getWindowText h
            acc ++ [{ image := some image, raw_data := raw,
                      info := { path := ps "API_TrayIcon_PID_" ++ pyStrOfNat pid,
                                index := 0, width := size, height := size,
                                bits_per_pixel := 32, format := ps "ICO",
                                size_bytes := raw.length, process_id := some pid,
                                window_title := some title, tooltip := some title },
                      success := true }]
      else acc) []

/-- The deduplication key of `get_tray_icons` (`catch_tray.py` line 190):
`f"{pid}_{title}_{tooltip}"`. -/
def dedup_key (icon : ExtractedIcon) : PyStr :=
  pyFmtOptNat icon.info.process_id ++ '_' :: pyFmtOptStr icon.info.window_title
    ++ '_' :: pyFmtOptStr icon.info.tooltip

/-- `get_tray_icons` (`catch_tray.py` lines 157-195): the improved tier,
then the window-enumeration tier if it yielded nothing, then the raw-API
tier if still nothing; finally keep only successful records, first
occurrence per deduplication key. -/
def get_tray_icons (deps_ok : Bool) (ws : WinSys) (size : Nat) : List ExtractedIcon :=
  let tray_icons := get_tray_icons_improved deps_ok ws size
  let tray_icons := if tray_icons.length = 0 then
      tray_icons ++ get_tray_icons_by_window_enum deps_ok ws size
    else tray_icons
  let tray_icons := if tray_icons.length = 0 then
      tray_icons ++ get_tray_icons_via_api deps_ok ws size
    else tray_icons
  (tray_icons.foldl (fun (p : List PyStr × List ExtractedIcon) icon =>
      if icon.success then
        let key := dedup_key icon
        if p.1.contains key then p
        else (p.1 ++ [key], p.2 ++ [icon])
      else p) ([], [])).2

end CatchTray

namespace Overlay

/-! ## `MakeAppIcon/overlay.py` — template composition

PIL images are modelled here with an explicit pixel function, since the
claim about `compose_on_template` concerns pixel content.  The PIL library
primitives `resize` and `paste` are modelled semantically: `resize` as
resampling of the source (any normalized filter, LANCZOS included, maps a
constant image to the same constant, which is the only property the
development relies on), and `paste` with an RGBA mask as per-pixel linear
alpha blending (exact at mask values 0 and 255). -/

/-- An RGBA pixel. -/
structure RGBA where
  r : Nat
  g : Nat
  b : Nat
  a : Nat
deriving DecidableEq, Repr

/-- An RGBA image: dimensions and a pixel function, observed on
`0 ≤ x < width`, `0 ≤ y < height`. -/
structure RGBAImage where
  width : Nat
  height : Nat
  pix : Nat → Nat → RGBA

/-- Model of PIL `Image.resize((w, h), LANCZOS)`: the result has exactly
the requested dimensions and samples the source. -/
def resize (img : RGBAImage) (w h : Nat) : RGBAImage :=
  { width := w, height := h,
    pix := fun x y => img.pix (x * img.width / w) (y * img.height / h) }

/-- One channel of alpha blending with mask value `a`. -/
def blendChannel (d s a : Nat) : Nat := (d * (255 - a) + s * a) / 255

/-- Model of PIL paste-with-RGBA-mask at one pixel: blend `s` over `d`
using `s`'s alpha; exact at alpha 255 (pure source) and 0 (pure
destination). -/
def blendPixel (d s : RGBA) : RGBA :=
  { r := blendChannel d.r s.r s.a, g := blendChannel d.g s.g s.a,
    b := blendChannel d.b s.b s.a, a := blendChannel d.a s.a s.a }

/-- Model of `dst.paste(src, (left, top), src)` (`overlay.py` line 42):
inside the pasted region blend with `src`'s alpha as mask, elsewhere keep
the destination; regions outside the canvas are clipped implicitly since
pixels are only observed within the destination bounds. -/
def paste (dst src : RGBAImage) (left top : Int) : RGBAImage :=
  { dst with pix := fun x y =>
      let sx : Int := (x : Int) - left
      let sy : Int := (y : Int) - top
      if 0 ≤ sx ∧ sx < (src.width : Int) ∧ 0 ≤ sy ∧ sy < (src.height : Int) then
        blendPixel (dst.pix x y) (src.pix sx.toNat sy.toNat)
      else dst.pix x y }

/-- Python floor division `//`. -/
def pyFloorDiv (a b : Int) : Int := Int.fdiv a b

/-- The value returned by `compose_on_template`: the composed image
together with the format it was encoded in. -/
structure ComposedImage where
  image : RGBAImage
  format : PyStr

/-- `compose_on_template` (`overlay.py` lines 16-47), taking the
already-loaded RGBA source and template images (`_to_pil` and the
template-file load, including the missing-template `FileNotFoundError`,
are filesystem concerns outside the image model): resize the source to
exactly 128×128, compute the centering offsets with Python floor
division, paste alpha-masked onto the template at its own size, and
encode with the requested format (default `"PNG"`). -/
def compose_on_template (image_data : RGBAImage) (template : RGBAImage)
    (output_format : PyStr := ps "PNG") : ComposedImage :=
  let src := resize image_data 128 128
  let tw : Int := template.width
  let th : Int := template.height
  let sw : Int := src.width
  let sh : Int := src.height
  let left := pyFloorDiv (tw - sw) 2
  let top := pyFloorDiv (th - sh) 2
  { image := paste template src left top, format := output_format }

end Overlay

/-! ## Helper lemmas on the Python-dict model -/

/-- Assignment grows a dict by at most one entry. -/
theorem pyDictInsert_length_le (c : List (PyStr × ExtractedIcon)) (k : PyStr)
    (v : ExtractedIcon) :
    (CatchIco.pyDictInsert c k v).length ≤ c.length + 1 := by
  induction c with
  | nil => simp [CatchIco.pyDictInsert]
  | cons hd tl ih =>
    obtain ⟨k', v'⟩ := hd
    by_cases h : k' = k
    · simp [CatchIco.pyDictInsert, h]
    · simpa [CatchIco.pyDictInsert, h] using ih

/-- Looking up the just-assigned key returns the just-assigned value. -/
theorem pyDictLookup_insert_self (c : List (PyStr × ExtractedIcon)) (k : PyStr)
    (v : ExtractedIcon) :
    CatchIco.pyDictLookup (CatchIco.pyDictInsert c k v) k = some v := by
  induction c with
  | nil => simp [CatchIco.pyDictInsert, CatchIco.pyDictLookup]
  | cons hd tl ih =>
    obtain ⟨k', v'⟩ := hd
    by_cases h : k' = k
    · simp [CatchIco.pyDictInsert, h, CatchIco.pyDictLookup]
    · simpa [CatchIco.pyDictInsert, h, CatchIco.pyDictLookup] using ih

/-! ## Concrete fixtures used by witnesses and counterexamples -/

/-- Loaders whose results record the size argument they were handed in the
`IconInfo` width/height fields — exactly the shape every internal loader
of `catchIco.py` produces (`width=size, height=size` in each
constructor call). -/
def probeLoaders : CatchIco.Loaders :=
  { systemIcon := fun id size =>
      { image := some { width := size, height := size, kind := .native 1 },
        raw_data := [size, size],
        info := { path := ps "SystemIcon:" ++ pyStrOfInt id, index := 0, width := size,
                  height := size, bits_per_pixel := 32, format := ps "ICO", size_bytes := 2 },
        success := true },
    specialFolder := fun p size =>
      { image := some { width := size, height := size, kind := .native 2 },
        raw_data := [size, size],
        info := { path := p, index := 0, width := size, height := size,
                  bits_per_pixel := 32, format := ps "ICO", size_bytes := 2 },
        success := true },
    fileIcon := fun p size i =>
      { image := some { width := size, height := size, kind := .native 3 },
        raw_data := [size, size],
        info := { path := p, index := i, width := size, height := size,
                  bits_per_pixel := 32, format := ps "ICO", size_bytes := 2 },
        success := true },
    shortcutIcon := fun p size =>
      { image := some { width := size, height := size, kind := .native 4 },
        raw_data := [size, size],
        info := { path := p, index := 0, width := size, height := size,
                  bits_per_pixel := 32, format := ps "ICO", size_bytes := 2 },
        success := true },
    extensionIcon := fun p size =>
      { image := some { width := size, height := size, kind := .native 5 },
        raw_data := [size, size],
        info := { path := p, index := 0, width := size, height := size,
                  bits_per_pixel := 32, format := ps "ICO", size_bytes := 2 },
        success := true } }

/-- Loaders that always fail, with the size recorded as the source's
failure branches record it. -/
def failLoaders : CatchIco.Loaders :=
  { systemIcon := fun id size =>
      { image := none, raw_data := [], info := iconInfoUnknown (ps "SystemIcon:" ++ pyStrOfInt id) 0 size,
        success := false, error := some (ps "未找到系统图标") },
    specialFolder := fun p size =>
      { image := none, raw_data := [], info := iconInfoUnknown p 0 size,
        success := false, error := some (ps "无法获取特殊文件夹图标") },
    fileIcon := fun p size i =>
      { image := none, raw_data := [], info := iconInfoUnknown p i size,
        success := false, error := some (ps "未找到图标") },
    shortcutIcon := fun p size =>
      { image := none, raw_data := [], info := iconInfoUnknown p 0 size,
        success := false, error := some (ps "提取快捷方式图标失败") },
    extensionIcon := fun p size =>
      { image := none, raw_data := [], info := iconInfoUnknown p 0 size,
        success := false, error := some (ps "提取扩展名图标失败") } }

/-! ## Claim theorems -/

/-- C2.  `extract_icon` classifies every source by the fixed
first-match-wins order of `catchIco.py` lines 174-204: an `int` or
all-digit string is a system icon id; then a `'::'`-prefixed string is a
special location; then an `.exe`/`.dll`/`.ico` suffix is a file icon;
then an `.lnk` suffix is a shortcut; then any string containing `'.'` is
an extension; otherwise an existing path is a file icon and anything else
is unrecognized.  In particular `"x.lnk"` classifies as a shortcut,
`"x.txt"` as an extension and `"12"` as system icon 12. -/
theorem c2_classification_order :
    (∀ pe : PyStr → Bool, ∀ idx : Int, ∀ n : Int,
       CatchIco.classify_source pe idx (.int n) = .systemId n) ∧
    (∀ pe : PyStr → Bool, ∀ idx : Int, ∀ s : PyStr, pyIsDigits s = true →
       CatchIco.classify_source pe idx (.str s) = .systemId (pyIntOfDigits s)) ∧
    (∀ pe : PyStr → Bool, ∀ idx : Int, ∀ s : PyStr, pyIsDigits s = false →
       pyStartsWith s (ps "::") = true →
       CatchIco.classify_source pe idx (.str s) = .specialLocation s) ∧
    (∀ pe : PyStr → Bool, ∀ idx : Int, ∀ s : PyStr, pyIsDigits s = false →
       pyStartsWith s (ps "::") = false →
       (pyEndsWith (pyToLower s) (ps ".exe") || pyEndsWith (pyToLower s) (ps ".dll")
         || pyEndsWith (pyToLower s) (ps ".ico")) = true →
       CatchIco.classify_source pe idx (.str s) = .fileIcon s idx) ∧
    (∀ pe : PyStr → Bool, ∀ idx : Int, ∀ s : PyStr, pyIsDigits s = false →
       pyStartsWith s (ps "::") = false →
       (pyEndsWith (pyToLower s) (ps ".exe") || pyEndsWith (pyToLower s) (ps ".dll")
         || pyEndsWith (pyToLower s) (ps ".ico")) = false →
       pyEndsWith (pyToLower s) (ps ".lnk") = true →
       CatchIco.classify_source pe idx (.str s) = .shortcut s) ∧
    (∀ pe : PyStr → Bool, ∀ idx : Int, ∀ s : PyStr, pyIsDigits s = false →
       pyStartsWith s (ps "::") = false →
       (pyEndsWith (pyToLower s) (ps ".exe") || pyEndsWith (pyToLower s) (ps ".dll")
         || pyEndsWith (pyToLower s) (ps ".ico")) = false →
       pyEndsWith (pyToLower s) (ps ".lnk") = false →
       s.contains '.' = true →
       CatchIco.classify_source pe idx (.str s) = .extension s) ∧
    (∀ pe : PyStr → Bool, ∀ idx : Int, ∀ s : PyStr, pyIsDigits s = false →
       pyStartsWith s (ps "::") = false →
       (pyEndsWith (pyToLower s) (ps ".exe") || pyEndsWith (pyToLower s) (ps ".dll")
         || pyEndsWith (pyToLower s) (ps ".ico")) = false →
       pyEndsWith (pyToLower s) (ps ".lnk") = false →
       s.contains '.' = false →
       CatchIco.classify_source pe idx (.str s) =
         (if pe s then .fileIcon s idx else .unrecognized s)) ∧
    (∀ pe : PyStr → Bool, ∀ idx : Int,
       CatchIco.classify_source pe idx (.str (ps "x.lnk")) = .shortcut (ps "x.lnk")) ∧
    (∀ pe : PyStr → Bool, ∀ idx : Int,
       CatchIco.classify_source pe idx (.str (ps "x.txt")) = .extension (ps "x.txt")) ∧
    (∀ pe : PyStr → Bool, ∀ idx : Int,
       CatchIco.classify_source pe idx (.str (ps "12")) = .systemId 12) := by
  refine ⟨fun pe idx n => rfl, ?_, ?_, ?_, ?_, ?_, ?_,
          fun pe idx => rfl, fun pe idx => rfl, fun pe idx => rfl⟩
  · intro pe idx s h1
    simp [CatchIco.classify_source, h1]
  · intro pe idx s h1 h2
    simp [CatchIco.classify_source, h1, h2]
  · intro pe idx s h1 h2 h3
    simp [CatchIco.classify_source, h1, h2, h3]
  · intro pe idx s h1 h2 h3 h4
    simp [CatchIco.classify_source, h1, h2, h3, h4]
  · intro pe idx s h1 h2 h3 h4 h5
    have h5' : '.' ∈ s := by simpa using h5
    simp [CatchIco.classify_source, h1, h2, h3, h4, h5']
  · intro pe idx s h1 h2 h3 h4 h5
    have h5' : '.' ∉ s := by simpa using h5
    simp [CatchIco.classify_source, h1, h2, h3, h4, h5']

/-- C2 witness: the `'::'` rule applied at the concrete source
`"::{clsid}"`. -/
theorem c2_classification_order_witness :
    CatchIco.classify_source (fun _ => false) 0 (.str (ps "::clsid")) =
      .specialLocation (ps "::clsid") :=
  c2_classification_order.2.2.1 (fun _ => false) 0 (ps "::clsid") (by decide) (by decide)

/-- C4.  `_add_to_cache` keeps the cache within its configured maximum
(for any positive maximum): when the cache is at or above capacity it
first deletes exactly the first-inserted (oldest) entry and then stores
the new one; concretely, with `max_size = 2`, inserting keys A, B, C in
order leaves exactly the entries for B and C, so the cache no longer
contains A and does contain C. -/
theorem c4_cache_bound_and_eviction :
    (∀ st : CatchIco.ExtractorState, ∀ k v, 1 ≤ st.max_cache_size →
       st.icon_cache.length ≤ st.max_cache_size →
       ∃ st', CatchIco.add_to_cache st k v = some st' ∧
         st'.icon_cache.length ≤ st.max_cache_size) ∧
    (∀ st : CatchIco.ExtractorState, ∀ e rest k v,
       st.icon_cache = e :: rest → st.max_cache_size ≤ st.icon_cache.length →
       CatchIco.add_to_cache st k v =
         some { st with icon_cache := CatchIco.pyDictInsert rest k v }) ∧
    (∀ vA vB vC : ExtractedIcon,
       ∃ st1 st2 st3 : CatchIco.ExtractorState,
         CatchIco.add_to_cache ⟨true, [], 2⟩ (ps "A") vA = some st1 ∧
         CatchIco.add_to_cache st1 (ps "B") vB = some st2 ∧
         CatchIco.add_to_cache st2 (ps "C") vC = some st3 ∧
         st3.icon_cache = [(ps "B", vB), (ps "C", vC)] ∧
         CatchIco.pyDictHasKey st3.icon_cache (ps "A") = false ∧
         CatchIco.pyDictHasKey st3.icon_cache (ps "C") = true) := by
  refine ⟨?_, ?_, ?_⟩
  · intro st k v hmax hlen
    by_cases hcap : st.max_cache_size ≤ st.icon_cache.length
    · match hc : st.icon_cache with
      | [] =>
        rw [hc] at hcap
        simp at hcap
        omega
      | e :: rest =>
        have hcap' : st.max_cache_size ≤ (e :: rest).length := hc ▸ hcap
        refine ⟨{ st with icon_cache := CatchIco.pyDictInsert rest k v }, ?_, ?_⟩
        · unfold CatchIco.add_to_cache
          rw [hc, if_pos hcap']
        · show (CatchIco.pyDictInsert rest k v).length ≤ st.max_cache_size
          have h1 := pyDictInsert_length_le rest k v
          have h2 : st.icon_cache.length = rest.length + 1 := by rw [hc]; simp
          omega
    · refine ⟨{ st with icon_cache := CatchIco.pyDictInsert st.icon_cache k v }, ?_, ?_⟩
      · unfold CatchIco.add_to_cache
        rw [if_neg hcap]
      · show (CatchIco.pyDictInsert st.icon_cache k v).length ≤ st.max_cache_size
        have h1 := pyDictInsert_length_le st.icon_cache k v
        omega
  · intro st e rest k v hc hcap
    unfold CatchIco.add_to_cache
    rw [hc] at hcap ⊢
    rw [if_pos hcap]
  · intro vA vB vC
    exact ⟨_, _, _, rfl, rfl, rfl, rfl, rfl, rfl⟩

/-- C4 witness: the at-capacity eviction rule applied to a concrete
two-entry cache with `max_size = 2`. -/
theorem c4_cache_bound_and_eviction_witness :
    CatchIco.add_to_cache
        ⟨true, [(ps "A", CatchIco.unrecognizedResult (ps "A") 0 16),
                (ps "B", CatchIco.unrecognizedResult (ps "B") 0 16)], 2⟩
        (ps "C") (CatchIco.unrecognizedResult (ps "C") 0 16) =
      some { cache_enabled := true,
             icon_cache := CatchIco.pyDictInsert
               [(ps "B", CatchIco.unrecognizedResult (ps "B") 0 16)]
               (ps "C") (CatchIco.unrecognizedResult (ps "C") 0 16),
             max_cache_size := 2 } :=
  c4_cache_bound_and_eviction.2.1
    ⟨true, [(ps "A", CatchIco.unrecognizedResult (ps "A") 0 16),
            (ps "B", CatchIco.unrecognizedResult (ps "B") 0 16)], 2⟩
    (ps "A", CatchIco.unrecognizedResult (ps "A") 0 16)
    [(ps "B", CatchIco.unrecognizedResult (ps "B") 0 16)]
    (ps "C") (CatchIco.unrecognizedResult (ps "C") 0 16) rfl (by decide)

/-- With a positive capacity, `_add_to_cache` cannot hit the
empty-dict `StopIteration`. -/
theorem add_to_cache_total (st : CatchIco.ExtractorState) (k : PyStr) (v : ExtractedIcon)
    (hmax : 1 ≤ st.max_cache_size) :
    ∃ st', CatchIco.add_to_cache st k v = some st' := by
  by_cases hcap : st.max_cache_size ≤ st.icon_cache.length
  · match hc : st.icon_cache with
    | [] =>
      rw [hc] at hcap
      simp at hcap
      omega
    | e :: rest =>
      have hcap' : st.max_cache_size ≤ (e :: rest).length := hc ▸ hcap
      refine ⟨{ st with icon_cache := CatchIco.pyDictInsert rest k v }, ?_⟩
      unfold CatchIco.add_to_cache
      rw [hc, if_pos hcap']
  · refine ⟨{ st with icon_cache := CatchIco.pyDictInsert st.icon_cache k v }, ?_⟩
    unfold CatchIco.add_to_cache
    rw [if_neg hcap]

/-- `_add_to_cache` touches only the cache dictionary. -/
theorem add_to_cache_fields (st st' : CatchIco.ExtractorState) (k : PyStr)
    (v : ExtractedIcon) (h : CatchIco.add_to_cache st k v = some st') :
    st'.cache_enabled = st.cache_enabled ∧ st'.max_cache_size = st.max_cache_size := by
  unfold CatchIco.add_to_cache at h
  split at h
  · split at h
    · exact Option.noConfusion h
    · cases h
      exact ⟨rfl, rfl⟩
  · cases h
    exact ⟨rfl, rfl⟩

/-- After `_add_to_cache` succeeds, the stored value is found under its
key. -/
theorem add_to_cache_lookup_self (st st' : CatchIco.ExtractorState) (k : PyStr)
    (v : ExtractedIcon) (h : CatchIco.add_to_cache st k v = some st') :
    CatchIco.pyDictLookup st'.icon_cache k = some v := by
  unfold CatchIco.add_to_cache at h
  split at h
  · split at h
    · exact Option.noConfusion h
    · cases h
      exact pyDictLookup_insert_self _ _ _
  · cases h
    exact pyDictLookup_insert_self _ _ _

/-- C3.  With caching enabled (and a positive capacity), for a key not yet
cached, `extract_icon` runs exactly one loader dispatch (count 1); if that
result is successful, an identical second call returns the stored
`ExtractedIcon` with no dispatch at all (count 0, so one dispatch across
the two calls); if it failed, nothing was stored (the state is unchanged)
and the identical second call runs the extraction again (count 1). -/
theorem c3_cache_only_success
    (L : CatchIco.Loaders) (pe : PyStr → Bool) (st : CatchIco.ExtractorState)
    (src : CatchIco.Source) (size : Nat) (idx : Int)
    (hen : st.cache_enabled = true)
    (hmax : 1 ≤ st.max_cache_size)
    (hfresh : CatchIco.pyDictLookup st.icon_cache (CatchIco.make_cache_key src size idx)
      = none) :
    ∃ r1 st1,
      CatchIco.extract_icon L pe st src size idx = some (r1, st1, 1) ∧
      (r1.success = true →
        CatchIco.extract_icon L pe st1 src size idx = some (r1, st1, 0)) ∧
      (r1.success = false →
        st1 = st ∧ CatchIco.extract_icon L pe st1 src size idx = some (r1, st, 1)) := by
  cases hs : (CatchIco.dispatch_source L pe src size idx).success with
  | true =>
    obtain ⟨st1, hadd⟩ := add_to_cache_total st (CatchIco.make_cache_key src size idx)
      (CatchIco.dispatch_source L pe src size idx) hmax
    have hen1 : st1.cache_enabled = true :=
      (add_to_cache_fields _ _ _ _ hadd).1.trans hen
    have hhit : CatchIco.pyDictLookup st1.icon_cache (CatchIco.make_cache_key src size idx)
        = some (CatchIco.dispatch_source L pe src size idx) :=
      add_to_cache_lookup_self _ _ _ _ hadd
    refine ⟨CatchIco.dispatch_source L pe src size idx, st1, ?_, ?_, ?_⟩
    · simp only [CatchIco.extract_icon, hen, if_true, hfresh, hs, Bool.and_true, hadd]
    · intro _
      simp only [CatchIco.extract_icon, hen1, if_true, hhit]
    · intro hfail
      rw [hs] at hfail
      exact Bool.noConfusion hfail
  | false =>
    refine ⟨CatchIco.dispatch_source L pe src size idx, st, ?_, ?_, ?_⟩
    · simp only [CatchIco.extract_icon, hen, if_true, hfresh, hs, Bool.and_false,
        Bool.false_eq_true, if_false]
    · intro htrue
      rw [hs] at htrue
      exact Bool.noConfusion htrue
    · intro _
      refine ⟨rfl, ?_⟩
      simp only [CatchIco.extract_icon, hen, if_true, hfresh, hs, Bool.and_false,
        Bool.false_eq_true, if_false]

/-- C3 witness: the theorem applied to the always-successful probe
loaders on the fresh source `5` with an enabled, empty cache of capacity
100. -/
theorem c3_cache_only_success_witness :
    ∃ r1 st1,
      CatchIco.extract_icon probeLoaders (fun _ => false) ⟨true, [], 100⟩ (.int 5) 32 0
        = some (r1, st1, 1) ∧
      (r1.success = true →
        CatchIco.extract_icon probeLoaders (fun _ => false) st1 (.int 5) 32 0
          = some (r1, st1, 0)) ∧
      (r1.success = false →
        st1 = ⟨true, [], 100⟩ ∧
        CatchIco.extract_icon probeLoaders (fun _ => false) st1 (.int 5) 32 0
          = some (r1, ⟨true, [], 100⟩, 1)) :=
  c3_cache_only_success probeLoaders (fun _ => false) ⟨true, [], 100⟩ (.int 5) 32 0
    rfl (by decide) rfl

/-- C6 counterexample.  `extract_icon` contains no size clamp: the
requested size 4 reaches the loader as 4 and is recorded as 4 (not 8),
and 1000 is recorded as 1000 (not 256). -/
theorem c6_counterexample :
    (CatchIco.extract_icon probeLoaders (fun _ => false) ⟨true, [], 100⟩ (.int 3) 4 0).map
        (fun r => r.1) = some (probeLoaders.systemIcon 3 4) ∧
    (CatchIco.extract_icon probeLoaders (fun _ => false) ⟨true, [], 100⟩ (.int 3) 4 0).map
        (fun r => r.1.info.width) = some 4 ∧
    (4 : Nat) ≠ 8 ∧
    (CatchIco.extract_icon probeLoaders (fun _ => false) ⟨true, [], 100⟩ (.int 3) 1000 0).map
        (fun r => r.1.info.width) = some 1000 ∧
    (1000 : Nat) ≠ 256 := by
  refine ⟨?_, ?_, ?_, ?_, ?_⟩ <;> decide

/-- C6 amended.  `extract_icon` does not clamp the requested size at all:
for every source, the size is handed to the dispatched loader unchanged
and recorded unchanged in the result's `IconInfo` (shown against loaders
that, like every loader in the source, record their `size` argument); an
out-of-range size is passed through rather than failing or being moved to
the nearest bound. -/
theorem c6_amended_no_clamping :
    ∀ (pe : PyStr → Bool) (src : CatchIco.Source) (size : Nat) (idx : Int),
      (CatchIco.extract_icon probeLoaders pe ⟨false, [], 100⟩ src size idx).map
        (fun r => (r.1.info.width, r.1.info.height)) = some (size, size) := by
  intro pe src size idx
  have h1 : CatchIco.extract_icon probeLoaders pe ⟨false, [], 100⟩ src size idx
      = some (CatchIco.dispatch_source probeLoaders pe src size idx, ⟨false, [], 100⟩, 1) := by
    simp only [CatchIco.extract_icon]
    rfl
  rw [h1]
  cases h : CatchIco.classify_source pe idx src <;>
    simp [CatchIco.dispatch_source, h, probeLoaders, CatchIco.unrecognizedResult,
      iconInfoUnknown]

/-- `splitAtLastChar` finds nothing when the character does not occur. -/
theorem splitAtLastChar_eq_none (c : Char) (s : PyStr) (h : c ∉ s) :
    CatchIco.splitAtLastChar c s = none := by
  induction s with
  | nil => rfl
  | cons x xs ih =>
    rw [List.mem_cons] at h
    push_neg at h
    simp only [CatchIco.splitAtLastChar, ih h.2]
    rw [if_neg (fun he => h.1 he.symm)]

/-- `splitAtLastChar` splits at the LAST occurrence: appending
`c :: r` with `c ∉ r` after any `l` splits off exactly `(l, r)`. -/
theorem splitAtLastChar_append_last (c : Char) (l r : PyStr) (h : c ∉ r) :
    CatchIco.splitAtLastChar c (l ++ c :: r) = some (l, r) := by
  induction l with
  | nil =>
    simp [List.nil_append, CatchIco.splitAtLastChar, splitAtLastChar_eq_none c r h]
  | cons x xs ih =>
    simp only [List.cons_append, CatchIco.splitAtLastChar, List.append_eq, ih]

/-- Registry fixture for the spec's example: `.txt` registered as type
`txtfile` whose `DefaultIcon` value is `"shell32.dll,2"`. -/
def regFixtureTxt : PyStr → Option PyStr := fun k =>
  if k = ps ".txt" then some (ps "txtfile")
  else if k = ps "txtfile\\DefaultIcon" then some (ps "shell32.dll,2")
  else none

/-- Registry fixture with an all-digit file part: `.xyz` registered as
type `xyzfile` whose `DefaultIcon` value is `"123,2"`. -/
def regFixtureDigits : PyStr → Option PyStr := fun k =>
  if k = ps ".xyz" then some (ps "xyzfile")
  else if k = ps "xyzfile\\DefaultIcon" then some (ps "123,2")
  else none

/-- C7 counterexample.  For the registered `DefaultIcon` value
`"123,2"` — of the claimed form `"<file>,<index>"` — the extension
extraction parses file `"123"` with index 2 and recurses into the general
`extract_icon` dispatch, which classifies `"123"` as a SYSTEM icon id
(123), not as file-icon extraction with that file and index. -/
theorem c7_counterexample :
    CatchIco.extract_extension_icon_plan regFixtureDigits (fun s => s) (ps ".xyz") 48
      = .recurse (ps "123") 48 2 ∧
    CatchIco.classify_source (fun _ => false) 2 (.str (ps "123")) = .systemId 123 ∧
    CatchIco.SourceKind.systemId 123 ≠ CatchIco.SourceKind.fileIcon (ps "123") 2 := by
  refine ⟨?_, ?_, ?_⟩ <;> decide

/-- C7 amended.  For a registered type's `DefaultIcon` value of the form
`"<file>,<index>"`, extension-icon extraction parses it by splitting at
the LAST comma into the file part and an integer index (the index
defaulting to 0 when no comma is present), expands environment-variable
tokens in the file part (twice when a `%` remains), and recurses into the
general `extract_icon` dispatch with that file and index — which performs
file-icon extraction whenever the (non-digit, non-`'::'`) file part
carries an `.exe`/`.dll`/`.ico` suffix, as in the example
`"shell32.dll,2"` → file `"shell32.dll"`, index 2; a file part of another
shape (e.g. all digits) dispatches to a different loader. -/
theorem c7_amended_extension_parse :
    (∀ s : PyStr, ',' ∉ s → CatchIco.parse_default_icon_value s = some (s, 0)) ∧
    (∀ l r : PyStr, ∀ i : Int, ',' ∉ r → pyInt? r = some i →
       CatchIco.parse_default_icon_value (l ++ ',' :: r) = some (l, i)) ∧
    (∀ (rq : PyStr → Option PyStr) (ev : PyStr → PyStr) (ext : PyStr) (size : Nat)
       (file_type icon_path file : PyStr) (i : Int),
       rq ext = some file_type → file_type.isEmpty = false →
       rq (file_type ++ ps "\\DefaultIcon") = some icon_path →
       icon_path.isEmpty = false →
       CatchIco.parse_default_icon_value icon_path = some (file, i) →
       CatchIco.extract_extension_icon_plan rq ev ext size =
         .recurse (if (ev file).contains '%' then ev (ev file) else ev file) size i) ∧
    (∀ (pe : PyStr → Bool) (idx : Int) (f : PyStr), pyIsDigits f = false →
       pyStartsWith f (ps "::") = false →
       (pyEndsWith (pyToLower f) (ps ".exe") || pyEndsWith (pyToLower f) (ps ".dll")
         || pyEndsWith (pyToLower f) (ps ".ico")) = true →
       CatchIco.classify_source pe idx (.str f) = .fileIcon f idx) ∧
    (CatchIco.extract_extension_icon_plan regFixtureTxt (fun s => s) (ps ".txt") 48
       = .recurse (ps "shell32.dll") 48 2 ∧
     CatchIco.classify_source (fun _ => false) 2 (.str (ps "shell32.dll"))
       = .fileIcon (ps "shell32.dll") 2) := by
  refine ⟨?_, ?_, ?_, ?_, by decide, by decide⟩
  · intro s h
    simp only [CatchIco.parse_default_icon_value, splitAtLastChar_eq_none ',' s h]
  · intro l r i hr hi
    simp [CatchIco.parse_default_icon_value, splitAtLastChar_append_last ',' l r hr, hi]
  · intro rq ev ext size file_type icon_path file i h1 h2 h3 h4 h5
    simp only [CatchIco.extract_extension_icon_plan, h1, h2, h3, h4, h5,
      Bool.false_eq_true, if_false]
  · intro pe idx f h1 h2 h3
    simp [CatchIco.classify_source, h1, h2, h3]

/-- C7 witness: the recursion rule applied to the concrete `.txt`
fixture, discharging each hypothesis by evaluation. -/
theorem c7_amended_extension_parse_witness :
    CatchIco.extract_extension_icon_plan regFixtureTxt (fun s => s) (ps ".txt") 48 =
      .recurse (if ((fun (s : PyStr) => s) (ps "shell32.dll")).contains '%'
                then (fun (s : PyStr) => s) ((fun (s : PyStr) => s) (ps "shell32.dll"))
                else (fun (s : PyStr) => s) (ps "shell32.dll")) 48 2 :=
  c7_amended_extension_parse.2.2.1 regFixtureTxt (fun s => s) (ps ".txt") 48
    (ps "txtfile") (ps "shell32.dll,2") (ps "shell32.dll") 2
    (by decide) (by decide) (by decide) (by decide) (by decide)

/-- C1.  `_hicon_to_pil` releases NOTHING: its event trace contains no
release at all while it acquires the screen device context, the backing
compatible bitmap and the compatible memory device context, so all three
leak past the return; and on every prefix of the trace (an exceptional
exit after `k` native calls, as caught by the `catch_tray.py` variant)
everything acquired up to that point leaks as well.  This contradicts the
claim — and the source's own practice, since the same file's
`_capture_window_rect` does release its DCs and bitmap. -/
theorem c1_hicon_to_pil_releases_nothing :
    releasedIn hicon_to_pil_events = [] ∧
    acquiredIn hicon_to_pil_events = [.screenDC, .compatibleBitmap, .memoryDC] ∧
    leakedIn hicon_to_pil_events = [.screenDC, .compatibleBitmap, .memoryDC] ∧
    (∀ k : Nat, leakedIn (hicon_to_pil_events.take k)
      = acquiredIn (hicon_to_pil_events.take k)) := by
  refine ⟨rfl, rfl, rfl, ?_⟩
  intro k
  match k with
  | 0 => rfl
  | 1 => rfl
  | 2 => rfl
  | n + 3 =>
    simp [hicon_to_pil_events, leakedIn, acquiredIn, releasedIn]

/-- C5.  When no taskbar root window (`"Shell_TrayWnd"`) exists, every
discovery tier returns nothing and `get_tray_icons` returns the empty
list — for every size and regardless of dependency availability (the
function itself is total: an empty list, never an exception). -/
theorem c5_no_taskbar_empty (deps_ok : Bool) (ws : CatchTray.WinSys) (size : Nat)
    (h : ws.findWindow (ps "Shell_TrayWnd") = 0) :
    CatchTray.get_tray_icons deps_ok ws size = [] := by
  have h1 : CatchTray.get_tray_icons_improved deps_ok ws size = [] := by
    simp [CatchTray.get_tray_icons_improved, h]
  have h2 : CatchTray.get_tray_icons_by_window_enum deps_ok ws size = [] := by
    simp [CatchTray.get_tray_icons_by_window_enum, h]
  have h3 : CatchTray.get_tray_icons_via_api deps_ok ws size = [] := by
    simp [CatchTray.get_tray_icons_via_api, h]
  simp [CatchTray.get_tray_icons, h1, h2, h3]

/-- The trivial window system: no windows at all. -/
def ws0 : CatchTray.WinSys :=
  { findWindow := fun _ => 0, findWindowEx := fun _ _ _ => 0,
    enumChildWindows := fun _ => [], getClassName := fun _ => none,
    getWindowRect := fun _ => none, isWindowVisible := fun _ => false,
    getWindowText := fun _ => [], windowThreadProcessId := fun _ => none,
    wmGetIcon := fun _ _ => 0, classLongIcon := fun _ _ => 0,
    processExePath := fun _ => none, pathExists := fun _ => false,
    extractIconEx := fun _ => ([], []), drawIconOk := fun _ _ => true,
    placeholderOk := true, tbButtonCount := fun _ => 0,
    tbGetItemRect := fun _ _ => none, captureOk := fun _ _ => false }

/-- C5 witness: `get_tray_icons(16)` on the window system without a
taskbar root window is `[]`. -/
theorem c5_no_taskbar_empty_witness :
    CatchTray.get_tray_icons true ws0 16 = [] :=
  c5_no_taskbar_empty true ws0 16 rfl

/-- A window system exercising the first discovery tier: taskbar root 1,
whose child 2 is the `TrayNotifyWnd` container (rectangle 0,0,40,40), with
one hosted `Button` control 3 whose on-screen rectangle 1000,1000,1020,1020
is DISJOINT from the container's; control 3 is visible, 20×20, answers
`WM_GETICON` with handle 7, and belongs to process 5. -/
def ws8 : CatchTray.WinSys :=
  { findWindow := fun s => if s == ps "Shell_TrayWnd" then 1 else 0,
    findWindowEx := fun _ _ _ => 0,
    enumChildWindows := fun h => if h == 1 then [2] else if h == 2 then [3] else [],
    getClassName := fun h =>
      if h == 2 then some (ps "TrayNotifyWnd")
      else if h == 3 then some (ps "Button") else none,
    getWindowRect := fun h =>
      if h == 2 then some ⟨0, 0, 40, 40⟩
      else if h == 3 then some ⟨1000, 1000, 1020, 1020⟩ else none,
    isWindowVisible := fun h => h == 3,
    getWindowText := fun _ => ps "demo",
    windowThreadProcessId := fun h => if h == 3 then some 5 else none,
    wmGetIcon := fun h _ => if h == 3 then 7 else 0,
    classLongIcon := fun _ _ => 0,
    processExePath := fun _ => none,
    pathExists := fun _ => false,
    extractIconEx := fun _ => ([], []),
    drawIconOk := fun _ _ => true,
    placeholderOk := true,
    tbButtonCount := fun _ => 0,
    tbGetItemRect := fun _ _ => none,
    captureOk := fun _ _ => false }

/-- The record tier 1 produces for control 3 of `ws8` at size 16. -/
def ws8icon : ExtractedIcon :=
  { image := some { width := 16, height := 16, kind := .native 7 },
    raw_data := [16, 16, 80, 78, 71],
    info := { path := ps "PID_5", index := 0, width := 16, height := 16,
              bits_per_pixel := 32, format := ps "ICO", size_bytes := 5,
              process_id := some 5, window_title := some (ps "demo"),
              tooltip := some (ps "demo") },
    success := true }

/-- C8 counterexample.  In the first (precise) tier, control 3 of `ws8`
contributes a successful icon even though its on-screen rectangle does
NOT intersect its container's rectangle: tier 1 never performs the
intersection test the claim states. -/
theorem c8_counterexample :
    CatchTray.tier1_process_child true ws8 16 3 = some ws8icon ∧
    CatchTray.get_tray_icons_improved true ws8 16 = [ws8icon] ∧
    ws8icon.success = true ∧
    ws8.enumChildWindows 2 = [3] ∧
    ws8.getWindowRect 2 = some ⟨0, 0, 40, 40⟩ ∧
    ws8.getWindowRect 3 = some ⟨1000, 1000, 1020, 1020⟩ ∧
    CatchTray.rect_intersects ⟨0, 0, 40, 40⟩ ⟨1000, 1000, 1020, 1020⟩ = false := by
  refine ⟨?_, ?_, ?_, ?_, ?_, ?_, ?_⟩ <;> decide

/-- C8 amended.  The first (precise) tier filters a candidate control
only by class, a known rectangle with width and height within 12-40 px
(hence within 8-64), and visibility — it applies NO intersection test
against the container; the intersection-with-container test together with
the 8-64 px bounds is applied by the second tier's per-window extraction
to its non-toolbar controls (when both rectangles are known). -/
theorem c8_amended_tier_filters :
    (∀ (deps_ok : Bool) (ws : CatchTray.WinSys) (size child : Nat)
       (icon : ExtractedIcon),
       CatchTray.tier1_process_child deps_ok ws size child = some icon →
       ∃ rect, ws.getWindowRect child = some rect ∧
         12 ≤ rect.right - rect.left ∧ rect.right - rect.left ≤ 40 ∧
         12 ≤ rect.bottom - rect.top ∧ rect.bottom - rect.top ≤ 40 ∧
         ws.isWindowVisible child = true) ∧
    (∀ (deps_ok : Bool) (ws : CatchTray.WinSys) (pr ir : Rect) (size child : Nat),
       ws.getClassName child ≠ some (ps "ToolbarWindow32") →
       ws.getWindowRect child = some ir →
       CatchTray.tier2_process_child deps_ok ws (some pr) size child ≠ [] →
       CatchTray.rect_intersects pr ir = true ∧
         8 ≤ ir.right - ir.left ∧ ir.right - ir.left ≤ 64 ∧
         8 ≤ ir.bottom - ir.top ∧ ir.bottom - ir.top ≤ 64) := by
  constructor
  · intro deps_ok ws size child icon h
    unfold CatchTray.tier1_process_child at h
    split at h
    · exact Option.noConfusion h
    · rename_i cn hcn
      split at h
      · split at h
        · exact Option.noConfusion h
        · rename_i rect hrect
          split at h
          · exact Option.noConfusion h
          · rename_i hsz
            split at h
            · exact Option.noConfusion h
            · rename_i hviz
              refine ⟨rect, hrect, ?_, ?_, ?_, ?_, ?_⟩
              · omega
              · omega
              · omega
              · omega
              · simpa using hviz
      · exact Option.noConfusion h
  · intro deps_ok ws pr ir size child hnotb hir h
    unfold CatchTray.tier2_process_child at h
    split at h
    · exact absurd rfl h
    · rename_i cn hcn
      split at h
      · rename_i htb
        exact absurd (hcn.trans (by rw [htb])) hnotb
      · split at h
        · exact absurd rfl h
        · split at h
          · exact absurd rfl h
          · split at h
            · exact absurd rfl h
            · rename_i hkeep
              rw [hir] at hkeep
              have hk0 : CatchTray.tier2_keep (some pr) (some ir) = true := by
                simpa using hkeep
              have hk : (if (!CatchTray.rect_intersects pr ir) = true then false
                  else !(decide (ir.right - ir.left < 8) || decide (ir.bottom - ir.top < 8)
                         || decide (64 < ir.right - ir.left)
                         || decide (64 < ir.bottom - ir.top))) = true := hk0
              cases hint : CatchTray.rect_intersects pr ir with
              | false =>
                rw [if_pos (by rw [hint]; rfl)] at hk
                exact Bool.noConfusion hk
              | true =>
                rw [if_neg (by rw [hint]; simp)] at hk
                simp only [Bool.not_eq_true', Bool.or_eq_false_iff,
                  decide_eq_false_iff_not, not_lt] at hk
                exact ⟨rfl, by omega, by omega, by omega, by omega⟩

/-- C8 witness: the tier-1 characterization applied to control 3 of
`ws8`, discharging the contribution hypothesis by evaluation. -/
theorem c8_amended_tier_filters_witness :
    ∃ rect, ws8.getWindowRect 3 = some rect ∧
      12 ≤ rect.right - rect.left ∧ rect.right - rect.left ≤ 40 ∧
      12 ≤ rect.bottom - rect.top ∧ rect.bottom - rect.top ≤ 40 ∧
      ws8.isWindowVisible 3 = true :=
  c8_amended_tier_filters.1 true ws8 16 3 ws8icon (by decide)

/-- `ws8` with a failing GDI drawing path: every handle-to-image
conversion must fall back to the synthetic placeholder. -/
def ws10 : CatchTray.WinSys := { ws8 with drawIconOk := fun _ _ => false }

/-- C10.  With both dependencies available, `catch_tray._hicon_to_pil`
never raises: for every window system, icon handle and size it returns an
image of exactly `size × size` pixels; whenever the native drawing path
fails it returns the gray "Icon" placeholder (or, if even that fails, the
solid red one) of that size; and tray discovery can then return
`success = true` records whose image is such a placeholder (shown on
`ws10`, where the whole pipeline reports one successful record carrying
the gray placeholder). -/
theorem c10_placeholder_fallback :
    (∀ (ws : CatchTray.WinSys) (hicon size : Nat),
       ∃ img, CatchTray.hicon_to_pil true ws hicon size = some img ∧
         img.width = size ∧ img.height = size) ∧
    (∀ (ws : CatchTray.WinSys) (hicon size : Nat),
       ws.drawIconOk hicon size = false →
       CatchTray.hicon_to_pil true ws hicon size =
         some { width := size, height := size,
                kind := if ws.placeholderOk then .grayPlaceholder else .redPlaceholder }) ∧
    ((CatchTray.get_tray_icons true ws10 16).map
        (fun r => (r.success, r.image.map (fun i => (i.width, i.height, i.kind)))) =
      [(true, some (16, 16, ImageKind.grayPlaceholder))]) := by
  refine ⟨?_, ?_, ?_⟩
  · intro ws hicon size
    by_cases h1 : ws.drawIconOk hicon size
    · exact ⟨{ width := size, height := size, kind := .native hicon },
        by simp [CatchTray.hicon_to_pil, h1], rfl, rfl⟩
    · by_cases h2 : ws.placeholderOk
      · exact ⟨{ width := size, height := size, kind := .grayPlaceholder },
          by simp [CatchTray.hicon_to_pil, h1, h2], rfl, rfl⟩
      · exact ⟨{ width := size, height := size, kind := .redPlaceholder },
          by simp [CatchTray.hicon_to_pil, h1, h2], rfl, rfl⟩
  · intro ws hicon size h
    simp only [CatchTray.hicon_to_pil, h, Bool.not_true, Bool.false_eq_true, if_false,
      Bool.not_eq_true]
    split <;> rfl
  · decide

/-- C10 witness: the placeholder rule applied on `ws10` at handle 7,
size 16. -/
theorem c10_placeholder_fallback_witness :
    ws10.drawIconOk 7 16 = false ∧
    CatchTray.hicon_to_pil true ws10 7 16 =
      some { width := 16, height := 16,
             kind := if ws10.placeholderOk then .grayPlaceholder else .redPlaceholder } :=
  ⟨rfl, c10_placeholder_fallback.2.1 ws10 7 16 rfl⟩

/-- Blending a fully opaque source pixel yields exactly the source
pixel. -/
theorem blendPixel_opaque (d s : Overlay.RGBA) (h : s.a = 255) :
    Overlay.blendPixel d s = s := by
  obtain ⟨r, g, b, a⟩ := s
  simp only at h
  subst h
  obtain ⟨dr, dg, db, da⟩ := d
  simp only [Overlay.blendPixel, Overlay.blendChannel, Overlay.RGBA.mk.injEq]
  refine ⟨?_, ?_, ?_, ?_⟩ <;> omega

/-- The centering offset of `compose_on_template` always places the
template's center pixel 64 columns (rows) into the 128-pixel pasted
source. -/
theorem center_offset_64 (n : Nat) :
    ((n / 2 : Nat) : Int) - Overlay.pyFloorDiv ((n : Int) - 128) 2 = 64 := by
  rw [Overlay.pyFloorDiv, Int.fdiv_eq_ediv _ (by norm_num)]
  omega

/-- Pasting a solid opaque 128×128 source with the centering offsets of
`compose_on_template` makes the destination's center pixel the source
color. -/
theorem paste_center_opaque (dst src2 : Overlay.RGBAImage) (c : Overlay.RGBA)
    (hw : src2.width = 128) (hh : src2.height = 128)
    (hsolid : ∀ x y, src2.pix x y = c) (hop : c.a = 255) :
    (Overlay.paste dst src2
        (Overlay.pyFloorDiv ((dst.width : Int) - (src2.width : Int)) 2)
        (Overlay.pyFloorDiv ((dst.height : Int) - (src2.height : Int)) 2)).pix
      (dst.width / 2) (dst.height / 2) = c := by
  have hx := center_offset_64 dst.width
  have hy := center_offset_64 dst.height
  unfold Overlay.paste
  dsimp only
  rw [hw, hh]
  rw [if_pos ?cond]
  case cond =>
    push_cast
    refine ⟨?_, ?_, ?_, ?_⟩ <;> omega
  rw [hsolid]
  exact blendPixel_opaque _ _ hop

/-- C9.  `compose_on_template` first resizes the source to exactly
128×128, pastes it alpha-composited and centered onto the template at the
template's own size, and encodes with the default format `"PNG"`: for
EVERY source image and template, the output's dimensions equal the
template's native dimensions (and the intermediate resize is exactly
128×128); and for a 64×64 solid opaque source the output's center pixel
equals the source's color. -/
theorem c9_compose_centered :
    (∀ src template : Overlay.RGBAImage,
       (Overlay.compose_on_template src template).image.width = template.width ∧
       (Overlay.compose_on_template src template).image.height = template.height ∧
       (Overlay.compose_on_template src template).format = ps "PNG" ∧
       (Overlay.resize src 128 128).width = 128 ∧
       (Overlay.resize src 128 128).height = 128) ∧
    (∀ (src template : Overlay.RGBAImage) (c : Overlay.RGBA),
       src.width = 64 → src.height = 64 →
       (∀ x y, src.pix x y = c) → c.a = 255 →
       1 ≤ template.width → 1 ≤ template.height →
       (Overlay.compose_on_template src template).image.pix
         (template.width / 2) (template.height / 2) = c) := by
  constructor
  · intro src template
    exact ⟨rfl, rfl, rfl, rfl, rfl⟩
  · intro src template c _ _ hsolid hop _ _
    exact paste_center_opaque template (Overlay.resize src 128 128) c rfl rfl
      (fun x y => hsolid _ _) hop

/-- A solid red, fully opaque pixel. -/
def solidRed : Overlay.RGBA := ⟨255, 0, 0, 255⟩

/-- A 64×64 solid red source image. -/
def src64 : Overlay.RGBAImage := ⟨64, 64, fun _ _ => solidRed⟩

/-- A 200×100 solid blue template image. -/
def templ200 : Overlay.RGBAImage := ⟨200, 100, fun _ _ => ⟨0, 0, 255, 255⟩⟩

/-- C9 witness: composing the 64×64 solid red source onto the 200×100
template yields a 200×100 PNG whose center pixel is red, applying the
center-pixel rule with every hypothesis discharged at the concrete
images. -/
theorem c9_compose_centered_witness :
    ((Overlay.compose_on_template src64 templ200).image.width = templ200.width ∧
     (Overlay.compose_on_template src64 templ200).image.height = templ200.height ∧
     (Overlay.compose_on_template src64 templ200).format = ps "PNG" ∧
     (Overlay.resize src64 128 128).width = 128 ∧
     (Overlay.resize src64 128 128).height = 128) ∧
    (Overlay.compose_on_template src64 templ200).image.pix
      (templ200.width / 2) (templ200.height / 2) = solidRed :=
  ⟨c9_compose_centered.1 src64 templ200,
   c9_compose_centered.2 src64 templ200 solidRed rfl rfl (fun _ _ => rfl) rfl
     (by decide) (by decide)⟩

end MikaDesktop
